import Mathlib

/-!
Verification of the Spec3 racing chatbot against its specification.

The development shallowly embeds the two Python implementations:
- `Main`: the standalone FastAPI server (`src/main.py`) — classifier,
  source queriers, hybrid synthesizer and chat orchestrator.
- `ChatbotLambda`: the serverless variant
  (`src/lambda-functions/chatbot-lambda/index.py`) — handler,
  knowledge-base processing and direct-model fallback.

Remote AWS calls are opaque collaborators: each call site takes the
outcome of the remote call (success payload or raised-exception text) as
an explicit parameter, and the surrounding control flow is translated
from the source.
-/

/-- Python `needle in haystack` on `str`: substring containment,
modelled as list-infix over the character data. -/
def pyIn (needle haystack : String) : Bool :=
  decide (needle.data <:+: haystack.data)

/-- Python `s.startswith(pre)`, modelled as list-prefix over the data. -/
def pyStartsWith (s pre : String) : Bool :=
  decide (pre.data <+: s.data)

/-- Python `s.lower()` (character-wise lowering; the source only feeds it
ASCII keyword text, where `Char.toLower` agrees with Python). -/
def pyLower (s : String) : String :=
  String.mk (s.data.map Char.toLower)

/-- Python `s.strip()` with no argument: remove leading and trailing
whitespace (the strings stripped by the source only carry ASCII spaces
and newlines, where `Char.isWhitespace` agrees with Python). -/
def pyStrip (s : String) : String :=
  String.mk (((s.data.dropWhile Char.isWhitespace).reverse.dropWhile
    Char.isWhitespace).reverse)

/-- Outcome of an opaque remote call that yields a text payload:
either the extracted text or the message of the raised exception. -/
inductive RemoteOutcome where
  | ok (text : String)
  | err (e : String)
  deriving DecidableEq

namespace Main

/-- `ChatResponse` model of `src/main.py` (lines 20-23). -/
structure ChatResponse where
  response : String
  sources : List String
  timestamp : String
  deriving DecidableEq

/-- The normalized `{answer, sources}` dict every querier returns. -/
structure ProviderResult where
  answer : String
  sources : List String
  deriving DecidableEq

/-- A Python dict as seen by `dict.get`: each key may be absent. -/
structure PyDict where
  answer : Option String
  sources : Option (List String)
  deriving DecidableEq

/-- The dicts built by the four queriers always carry both keys. -/
def toDict (r : ProviderResult) : PyDict :=
  { answer := some r.answer, sources := some r.sources }

/-- Keyword list of `_classify_query`, line 62. -/
def rules_keywords : List String :=
  ["rulebook", "regulation", "legal", "allowed", "requirement", "spec", "rule"]

/-- Keyword list of `_classify_query`, line 65. -/
def dynamic_keywords : List String :=
  ["part", "price", "schedule", "race", "event", "upcoming", "cost"]

/-- Keyword list of `_classify_query`, line 68. -/
def hybrid_keywords : List String :=
  ["build", "car", "setup", "recommend"]

/-- Python `any(word in message_lower for word in ws)`. -/
def containsAny (message_lower : String) (ws : List String) : Bool :=
  ws.any (fun word => pyIn word message_lower)

/-- `Spec3Chatbot._classify_query` (`src/main.py` lines 57-77). -/
def classify_query (message : String) : String :=
  let message_lower := pyLower message
  if containsAny message_lower hybrid_keywords then "hybrid"
  else if containsAny message_lower rules_keywords then "rules"
  else if containsAny message_lower dynamic_keywords then "parts_or_schedule"
  else "general"

/-- `Spec3Chatbot._query_knowledge_base` (lines 79-106): on success the
model reply text with the constant source label, on any exception the
error-describing answer with empty sources.  The prompt construction and
reply-field extraction are absorbed into the remote outcome. -/
def query_knowledge_base : RemoteOutcome → ProviderResult
  | .ok text => { answer := text, sources := ["Spec3 Rulebook"] }
  | .err e => { answer := "Error querying knowledge base: " ++ e, sources := [] }

/-- `Spec3Chatbot._query_mcp_server` (lines 108-126): the placeholder
body cannot raise, so the `except` branch is dead. -/
def query_mcp_server (message : String) : ProviderResult :=
  { answer := "MCP query result for: " ++ message ++ " (placeholder - implement MCP client)"
    sources := ["Google Sheets via MCP"] }

/-- `Spec3Chatbot._handle_general_query` (lines 155-182). -/
def handle_general_query : RemoteOutcome → ProviderResult
  | .ok text => { answer := text, sources := ["General Spec3 Knowledge"] }
  | .err _ =>
      { answer := "I'm here to help with Spec3 racing questions! Could you be more specific?"
        sources := [] }

/-- `Spec3Chatbot._query_both_sources` (lines 128-153): gather both
queriers (each already total), concatenate under the fixed f-string
template, strip, and append the source lists.  The inner queriers never
raise, so the outer `except` branch is dead. -/
def query_both_sources (kb : RemoteOutcome) (message : String) : ProviderResult :=
  let rules_response := query_knowledge_base kb
  let data_response := query_mcp_server message
  { answer := pyStrip ("\n            Based on the rules: " ++ rules_response.answer ++
      "\n            \n            Current data: " ++ data_response.answer ++ "\n            ")
    sources := rules_response.sources ++ data_response.sources }

/-- Environment of one `process_message` call: the outcomes of the
knowledge-base remote call and of the general-query remote call. -/
structure Env where
  kbOutcome : RemoteOutcome
  generalOutcome : RemoteOutcome
  deriving DecidableEq

/-- The routing `if/elif` chain of `process_message` (lines 42-49). -/
def dispatch (env : Env) (message : String) : ProviderResult :=
  let query_type := classify_query message
  if query_type = "rules" then query_knowledge_base env.kbOutcome
  else if query_type = "parts_or_schedule" then query_mcp_server message
  else if query_type = "hybrid" then query_both_sources env.kbOutcome message
  else handle_general_query env.generalOutcome

/-- The `ChatResponse(...)` construction of lines 51-55: `dict.get` with
defaults for `answer` and `sources`, current time stamped. -/
def wrap (response : PyDict) (now : String) : ChatResponse :=
  { response := response.answer.getD "Sorry, I could not find an answer."
    sources := response.sources.getD []
    timestamp := now }

/-- `Spec3Chatbot.process_message` (lines 36-55). -/
def process_message (env : Env) (message : String) (now : String) : ChatResponse :=
  wrap (toDict (dispatch env message)) now

end Main

namespace ChatbotLambda

/-- One item of the `content` array of a model-invocation response;
`'text'` may be absent (accessing it then raises `KeyError`). -/
structure ContentItem where
  text : Option String
  deriving DecidableEq

/-- The parsed JSON payload of `invoke_model`, restricted to the fields
the code inspects (`'content'` and `'completion'`); either may be
absent. -/
structure RespBody where
  content : Option (List ContentItem)
  completion : Option String
  deriving DecidableEq

/-- Outcome of the `invoke_model` remote call: the parsed response body
on success, or the raised exception's text. -/
inductive InvokeOutcome where
  | ok (body : RespBody)
  | err (e : String)
  deriving DecidableEq

/-- Python `str(...)` of one content item (dict repr). -/
def pyStrContentItem : ContentItem → String
  | { text := some t } => "\x7b'text': '" ++ t ++ "'\x7d"
  | { text := none } => "\x7b\x7d"

/-- Python `str(response_body)`: the dict repr of the parsed payload
(fields rendered in the `content`, `completion` order). -/
def pyStrBody (b : RespBody) : String :=
  match b.content, b.completion with
  | none, none => "\x7b\x7d"
  | some cs, none =>
      "\x7b'content': [" ++ String.intercalate ", " (cs.map pyStrContentItem) ++ "]\x7d"
  | none, some c => "\x7b'completion': '" ++ c ++ "'\x7d"
  | some cs, some c =>
      "\x7b'content': [" ++ String.intercalate ", " (cs.map pyStrContentItem) ++
        "], 'completion': '" ++ c ++ "'\x7d"

/-- The model-id extraction duplicated at `index.py` lines 67-76 and
123-132: inference-profile ARNs are hard-coded to the Nova Premier id,
other ARNs keep the segment after the last `/`, non-ARNs pass through. -/
def extract_model_id (model_arn : String) : String :=
  if pyStartsWith model_arn "arn:aws:bedrock:" then
    if pyIn "inference-profile" model_arn then "us.amazon.nova-premier-v1:0"
    else (model_arn.splitOn "/").getLastD ""
  else model_arn

/-- The request/response format families of `fallback_response`. -/
inductive ModelFormat where
  | nova
  | claude
  deriving DecidableEq

/-- The format selection `if 'nova-premier' in model_id` performed at
`index.py` lines 137 and 176. -/
def model_format (model_id : String) : ModelFormat :=
  if pyIn "nova-premier" model_id then .nova else .claude

/-- The Nova-branch response parsing (`index.py` lines 176-183):
`content[0]['text']` when `content` is present and non-empty, else
`completion`, else `str(response_body)`; a missing `'text'` key raises.
`.error` carries the Python exception text. -/
def parse_nova (b : RespBody) : Except String String :=
  match b.content with
  | some (item :: _) =>
      match item.text with
      | some t => .ok t
      | none => .error "'text'"
  | _ =>
      match b.completion with
      | some c => .ok c
      | none => .ok (pyStrBody b)

/-- The Claude-branch response parsing (`index.py` line 185):
`response_body['content'][0]['text']` with no fallback — a missing key
or empty array raises. -/
def parse_claude (b : RespBody) : Except String String :=
  match b.content with
  | none => .error "'content'"
  | some [] => .error "list index out of range"
  | some (item :: _) =>
      match item.text with
      | some t => .ok t
      | none => .error "'text'"

/-- The apology string of the `except` branch of `fallback_response`
(`index.py` line 192). -/
def apology (e : String) : String :=
  "I apologize, but I'm having trouble processing your request right now. Error: " ++ e

/-- `fallback_response` (`index.py` lines 117-192).  The message enters
only the request body, which is absorbed into the invoke outcome; any
exception — from the remote call or from parsing — reaches the `except`
branch and becomes the apology text. -/
def fallback_response (model_arn_env : Option String) (_message : String)
    (inv : InvokeOutcome) : String :=
  let model_arn := model_arn_env.getD ""
  let model_id := extract_model_id model_arn
  match inv with
  | .err e => apology e
  | .ok response_body =>
      match
        (match model_format model_id with
         | .nova => parse_nova response_body
         | .claude => parse_claude response_body) with
      | .ok result => result
      | .error e => apology e

/-- `process_message` (`index.py` lines 58-115): an absent or empty
`KNOWLEDGE_BASE_ID` (env lookup defaults to `''`, and
`not knowledge_base_id or knowledge_base_id == ''` holds exactly for
`''`) skips retrieve-and-generate and uses `fallback_response`; a
failing retrieve-and-generate also falls back. -/
def process_message (model_arn_env kb_env : Option String) (message : String)
    (rag : RemoteOutcome) (inv : InvokeOutcome) : String :=
  let knowledge_base_id := kb_env.getD ""
  if knowledge_base_id = "" then fallback_response model_arn_env message inv
  else
    match rag with
    | .ok text => text
    | .err _ => fallback_response model_arn_env message inv

/-- The request body parsed by the handler from the event's `body`
JSON: each field may be absent. -/
structure RequestBody where
  message : Option String
  session_id : Option String
  deriving DecidableEq

/-- The success response the handler returns (`index.py` lines 32-44):
status code plus the `response` and `session_id` fields of the JSON
body. -/
structure HandlerResult where
  statusCode : Nat
  response : String
  session_id : String
  deriving DecidableEq

/-- `handler` (`index.py` lines 14-44) on a well-formed event:
`message` and `session_id` default to `''` and `'default'`; an empty
message falls back to the event's top-level `messages` field when
present; the response body echoes `session_id` unchanged. -/
def handler (body : RequestBody) (eventMessages : Option String)
    (model_arn_env kb_env : Option String) (rag : RemoteOutcome)
    (inv : InvokeOutcome) : HandlerResult :=
  let user_message := body.message.getD ""
  let session_id := body.session_id.getD "default"
  let user_message := if user_message = "" then eventMessages.getD user_message
    else user_message
  { statusCode := 200
    response := process_message model_arn_env kb_env user_message rag inv
    session_id := session_id }

end ChatbotLambda

/-- `pyIn` decides list-infix containment of the character data. -/
theorem pyIn_eq_true {n h : String} : pyIn n h = true ↔ n.data <:+: h.data := by
  simp [pyIn]

/-- A substring occurs in `h` as soon as its data sits between two
explicit flanks of `h.data`. -/
theorem pyIn_of_data_eq (n h : String) (s t : List Char)
    (he : h.data = s ++ n.data ++ t) : pyIn n h = true :=
  pyIn_eq_true.mpr ⟨s, t, he.symm⟩

/-- Stripping a string made of a whitespace prefix, a body delimited by
non-whitespace characters, and a whitespace suffix returns the body. -/
theorem pyStrip_data (s : String) (wsl wsr M : List Char) (c d : Char)
    (hs : s.data = wsl ++ (c :: (M ++ [d])) ++ wsr)
    (hl : ∀ a ∈ wsl, a.isWhitespace = true)
    (hr : ∀ a ∈ wsr, a.isWhitespace = true)
    (hc : c.isWhitespace = false)
    (hd : d.isWhitespace = false) :
    (pyStrip s).data = c :: (M ++ [d]) := by
  show ((s.data.dropWhile Char.isWhitespace).reverse.dropWhile
    Char.isWhitespace).reverse = c :: (M ++ [d])
  rw [hs, List.append_assoc, List.dropWhile_append_of_pos hl, List.cons_append,
    List.dropWhile_cons_of_neg (by simp [hc])]
  rw [List.reverse_cons, List.reverse_append, List.append_assoc,
    List.dropWhile_append_of_pos (fun a ha => hr a (List.mem_reverse.mp ha))]
  rw [show (M ++ [d]).reverse ++ [c] = d :: (M.reverse ++ [c]) by simp]
  rw [List.dropWhile_cons_of_neg (by simp [hd])]
  simp

namespace Main

/-- The synthesized hybrid answer in closed form: the stripping in
`_query_both_sources` removes exactly the leading and trailing template
whitespace, whatever the rules answer and the message are. -/
theorem both_sources_answer_data (kb : RemoteOutcome) (m : String) :
    (query_both_sources kb m).answer.data =
      "Based on the rules: ".data ++ (query_knowledge_base kb).answer.data ++
      "\n            \n            Current data: ".data ++
      "MCP query result for: ".data ++ m.data ++
      " (placeholder - implement MCP client)".data := by
  have e1 : ("\n            Based on the rules: " : String).data
      = "\n            ".data ++ ('B' :: "ased on the rules: ".data) := by decide
  have e2 : (" (placeholder - implement MCP client)" : String).data
      = " (placeholder - implement MCP client".data ++ [')'] := by decide
  have e3 : ("Based on the rules: " : String).data
      = 'B' :: "ased on the rules: ".data := by decide
  have hmain := pyStrip_data
    ("\n            Based on the rules: " ++ (query_knowledge_base kb).answer ++
      "\n            \n            Current data: " ++
      ("MCP query result for: " ++ m ++ " (placeholder - implement MCP client)") ++
      "\n            ")
    "\n            ".data "\n            ".data
    ("ased on the rules: ".data ++ (query_knowledge_base kb).answer.data ++
      "\n            \n            Current data: ".data ++
      "MCP query result for: ".data ++ m.data ++
      " (placeholder - implement MCP client".data)
    'B' ')'
    (by simp [e1, e2, List.append_assoc])
    (by decide) (by decide) (by decide) (by decide)
  calc (query_both_sources kb m).answer.data
      = (pyStrip ("\n            Based on the rules: " ++
          (query_knowledge_base kb).answer ++
          "\n            \n            Current data: " ++
          ("MCP query result for: " ++ m ++
            " (placeholder - implement MCP client)") ++
          "\n            ")).data := rfl
    _ = _ := by rw [hmain]; simp [e3, e2, List.append_assoc]

/-- C2: the synthesized hybrid answer always contains both literal
headers and both provider answers (a failed rules call contributes its
error text through `query_knowledge_base`, never an omission), and the
synthesized sources are the rules sources followed by the dynamic
sources. -/
theorem hybrid_synthesis_contract (kb : RemoteOutcome) (message : String) :
    pyIn "Based on the rules:" (query_both_sources kb message).answer = true
    ∧ pyIn "Current data:" (query_both_sources kb message).answer = true
    ∧ pyIn (query_knowledge_base kb).answer
        (query_both_sources kb message).answer = true
    ∧ pyIn (query_mcp_server message).answer
        (query_both_sources kb message).answer = true
    ∧ (query_both_sources kb message).sources =
        (query_knowledge_base kb).sources ++ (query_mcp_server message).sources := by
  have hd := both_sources_answer_data kb message
  have s1 : ("Based on the rules: " : String).data
      = "Based on the rules:".data ++ [' '] := by decide
  have s2 : ("\n            \n            Current data: " : String).data
      = "\n            \n            ".data ++ ("Current data:".data ++ [' ']) := by
    decide
  refine ⟨?_, ?_, ?_, ?_, rfl⟩
  · exact pyIn_of_data_eq _ _ []
      (' ' :: ((query_knowledge_base kb).answer.data ++
        ("\n            \n            Current data: ".data ++
          ("MCP query result for: ".data ++ (message.data ++
            " (placeholder - implement MCP client)".data)))))
      (by rw [hd]; simp [s1, List.append_assoc])
  · exact pyIn_of_data_eq _ _
      ("Based on the rules: ".data ++ ((query_knowledge_base kb).answer.data ++
        "\n            \n            ".data))
      (' ' :: ("MCP query result for: ".data ++ (message.data ++
        " (placeholder - implement MCP client)".data)))
      (by rw [hd]; simp [s2, List.append_assoc])
  · exact pyIn_of_data_eq _ _
      "Based on the rules: ".data
      ("\n            \n            Current data: ".data ++
        ("MCP query result for: ".data ++ (message.data ++
          " (placeholder - implement MCP client)".data)))
      (by rw [hd]; simp [List.append_assoc])
  · exact pyIn_of_data_eq _ _
      ("Based on the rules: ".data ++ ((query_knowledge_base kb).answer.data ++
        "\n            \n            Current data: ".data))
      []
      (by rw [hd]; simp [query_mcp_server, List.append_assoc])

/-- C1: every message whose lower-cased text contains a hybrid keyword
(`build`, `car`, `setup`, `recommend`) is classified `hybrid`, whatever
other keywords it contains — the hybrid check is first in the chain. -/
theorem classify_hybrid_precedence (message : String)
    (h : containsAny (pyLower message) hybrid_keywords = true) :
    classify_query message = "hybrid" := by
  simp [classify_query, h]

/-- Witness for C1: a message carrying hybrid (`build`, `car`), rules
(`rule`) and dynamic (`race`) keywords is still classified `hybrid`. -/
theorem classify_hybrid_precedence_witness :
    containsAny (pyLower "build a car rule race") hybrid_keywords = true
    ∧ containsAny (pyLower "build a car rule race") rules_keywords = true
    ∧ containsAny (pyLower "build a car rule race") dynamic_keywords = true
    ∧ classify_query "build a car rule race" = "hybrid" :=
  ⟨by decide, by decide, by decide,
   classify_hybrid_precedence "build a car rule race" (by decide)⟩

/-- C8: a message whose lower-cased text contains no keyword from the
hybrid, rules or dynamic lists is classified `general`. -/
theorem no_keyword_classifies_general (message : String)
    (h1 : containsAny (pyLower message) hybrid_keywords = false)
    (h2 : containsAny (pyLower message) rules_keywords = false)
    (h3 : containsAny (pyLower message) dynamic_keywords = false) :
    classify_query message = "general" := by
  simp [classify_query, h1, h2, h3]

/-- Witness for C8: `"Hello"` contains no keyword and is `general`. -/
theorem no_keyword_classifies_general_witness :
    classify_query "Hello" = "general" :=
  no_keyword_classifies_general "Hello" (by decide) (by decide) (by decide)

/-- C9: classification is substring containment on the lower-cased
message, not whole-word matching: a keyword occurring anywhere in the
text — also inside a longer word — classifies the message by its list
under the hybrid → rules → dynamic precedence. -/
theorem substring_classification (message w : String) :
    (w ∈ hybrid_keywords → pyIn w (pyLower message) = true →
       classify_query message = "hybrid")
    ∧ (w ∈ rules_keywords → pyIn w (pyLower message) = true →
       containsAny (pyLower message) hybrid_keywords = false →
       classify_query message = "rules")
    ∧ (w ∈ dynamic_keywords → pyIn w (pyLower message) = true →
       containsAny (pyLower message) hybrid_keywords = false →
       containsAny (pyLower message) rules_keywords = false →
       classify_query message = "parts_or_schedule") := by
  refine ⟨fun hw hin => ?_, fun hw hin hh => ?_, fun hw hin hh hr => ?_⟩
  · have hc : containsAny (pyLower message) hybrid_keywords = true :=
      List.any_eq_true.mpr ⟨w, hw, hin⟩
    simp [classify_query, hc]
  · have hc : containsAny (pyLower message) rules_keywords = true :=
      List.any_eq_true.mpr ⟨w, hw, hin⟩
    simp [classify_query, hh, hc]
  · have hc : containsAny (pyLower message) dynamic_keywords = true :=
      List.any_eq_true.mpr ⟨w, hw, hin⟩
    simp [classify_query, hh, hr, hc]

/-- C3: a failure of the remote call inside the rules querier is caught
at the querier boundary: the returned result's answer is non-empty text
describing the error, its sources are empty, and the `ChatResponse`
built for a rules-classified message has a non-empty response and `[]`
sources. -/
theorem rules_querier_failure_degrades (e message now : String)
    (gen : RemoteOutcome) (hcls : classify_query message = "rules") :
    (query_knowledge_base (.err e)).answer ≠ ""
    ∧ (query_knowledge_base (.err e)).sources = []
    ∧ (process_message ⟨.err e, gen⟩ message now).response ≠ ""
    ∧ (process_message ⟨.err e, gen⟩ message now).sources = [] := by
  have hne : ("Error querying knowledge base: " ++ e) ≠ "" := by
    intro h
    have hdata := congrArg String.data h
    rw [String.data_append] at hdata
    rcases List.append_eq_nil.mp hdata with ⟨h1, _⟩
    exact absurd h1 (by decide)
  have hdis : dispatch ⟨.err e, gen⟩ message = query_knowledge_base (.err e) := by
    simp [dispatch, hcls]
  refine ⟨hne, rfl, ?_, ?_⟩
  · show (wrap (toDict (dispatch ⟨.err e, gen⟩ message)) now).response ≠ ""
    rw [hdis]
    exact hne
  · show (wrap (toDict (dispatch ⟨.err e, gen⟩ message)) now).sources = []
    rw [hdis]
    rfl

/-- Witness for C3: the remote call raises `boom` on the rules-classified
message `"rule"`. -/
theorem rules_querier_failure_degrades_witness :
    (query_knowledge_base (.err "boom")).answer ≠ ""
    ∧ (query_knowledge_base (.err "boom")).sources = []
    ∧ (process_message ⟨.err "boom", .ok "x"⟩ "rule" "t").response ≠ ""
    ∧ (process_message ⟨.err "boom", .ok "x"⟩ "rule" "t").sources = [] :=
  rules_querier_failure_degrades "boom" "rule" "t" (.ok "x") (by decide)

/-- C4 fails as stated: a provider answer that is present but empty is
passed through verbatim by `dict.get`, not replaced by the default text.
With the model replying empty text to the rules-classified message
`"rule"`, the `ChatResponse.response` is `""`, not the default. -/
theorem empty_answer_not_defaulted :
    (process_message ⟨.ok "", .ok "x"⟩ "rule" "t").response = ""
    ∧ (process_message ⟨.ok "", .ok "x"⟩ "rule" "t").response
        ≠ "Sorry, I could not find an answer." := by
  exact ⟨by decide, by decide⟩

/-- C4 amended: `process_message` returns the dispatched provider's
answer verbatim — even when it is empty — and stamps the given time; the
default text `"Sorry, I could not find an answer."` is substituted only
when the `answer` key is missing from the provider dict, which the four
queriers never produce. -/
theorem orchestrator_wrap_behavior (env : Env) (message now : String) :
    (process_message env message now).response = (dispatch env message).answer
    ∧ (process_message env message now).timestamp = now
    ∧ (wrap { answer := none, sources := none } now).response
        = "Sorry, I could not find an answer." :=
  ⟨rfl, rfl, rfl⟩

/-- Witness for C9: `"card"` contains `car`, `"especially"` contains
`spec`, `"my apartment"` contains `part` — each only inside a longer
word, yet each classifies by that keyword's list. -/
theorem substring_classification_witness :
    classify_query "card" = "hybrid"
    ∧ classify_query "especially" = "rules"
    ∧ classify_query "my apartment" = "parts_or_schedule" :=
  ⟨(substring_classification "card" "car").1 (by decide) (by decide),
   (substring_classification "especially" "spec").2.1 (by decide) (by decide)
     (by decide),
   (substring_classification "my apartment" "part").2.2 (by decide) (by decide)
     (by decide) (by decide)⟩

end Main

namespace ChatbotLambda

/-- C5 fails as stated: only the Nova-format branch falls back to
stringifying the payload.  At a Claude model identifier with a payload
carrying no known answer field, `fallback_response` returns the apology
error text (the branch raises `KeyError` internally), not the
stringified payload. -/
theorem claude_branch_no_stringify :
    fallback_response (some "anthropic.claude-3-sonnet-20240229-v1:0") "hello"
        (.ok { content := none, completion := none })
      = apology "'content'"
    ∧ fallback_response (some "anthropic.claude-3-sonnet-20240229-v1:0") "hello"
        (.ok { content := none, completion := none })
      ≠ pyStrBody { content := none, completion := none } :=
  ⟨by decide, by decide⟩

/-- C5 amended: the querier layer selects the request/response format
from the model identifier string; on a payload with no known answer
field, the Nova-format branch falls back to stringifying the whole
payload, while the Claude-format branch raises internally and returns
the apology error text. -/
theorem fallback_parse_behavior (model_arn_env : Option String)
    (message : String) (body : RespBody)
    (hc : body.content = none) (hcomp : body.completion = none) :
    (model_format (extract_model_id (model_arn_env.getD "")) = .nova →
       fallback_response model_arn_env message (.ok body) = pyStrBody body)
    ∧ (model_format (extract_model_id (model_arn_env.getD "")) = .claude →
       fallback_response model_arn_env message (.ok body)
         = apology "'content'") := by
  constructor <;> intro hf <;>
    simp [fallback_response, hf, parse_nova, parse_claude, hc, hcomp]

/-- Witness for amended C5: a Nova id stringifies the empty payload to
`\x7b\x7d`, a Claude id yields the apology text. -/
theorem fallback_parse_behavior_witness :
    fallback_response (some "us.amazon.nova-premier-v1:0") "hi"
        (.ok { content := none, completion := none })
      = pyStrBody { content := none, completion := none }
    ∧ fallback_response (some "anthropic.claude-3-sonnet-20240229-v1:0") "hi"
        (.ok { content := none, completion := none })
      = apology "'content'" :=
  ⟨(fallback_parse_behavior (some "us.amazon.nova-premier-v1:0") "hi"
      { content := none, completion := none } rfl rfl).1 (by decide),
   (fallback_parse_behavior (some "anthropic.claude-3-sonnet-20240229-v1:0") "hi"
      { content := none, completion := none } rfl rfl).2 (by decide)⟩

/-- C6: an absent or empty `KNOWLEDGE_BASE_ID` makes `process_message`
take the fallback-to-direct-model path and return its textual result. -/
theorem missing_kb_id_uses_fallback (model_arn_env kb_env : Option String)
    (message : String) (rag : RemoteOutcome) (inv : InvokeOutcome)
    (h : kb_env = none ∨ kb_env = some "") :
    process_message model_arn_env kb_env message rag inv
      = fallback_response model_arn_env message inv := by
  rcases h with h | h <;> subst h <;> rfl

/-- Witness for C6: with no knowledge-base id configured, processing
returns the fallback's text even though retrieve-and-generate would
fail. -/
theorem missing_kb_id_uses_fallback_witness :
    process_message (some "us.amazon.nova-premier-v1:0") none "hi"
        (.err "rag down") (.ok { content := none, completion := none })
      = fallback_response (some "us.amazon.nova-premier-v1:0") "hi"
        (.ok { content := none, completion := none }) :=
  missing_kb_id_uses_fallback (some "us.amazon.nova-premier-v1:0") none "hi"
    (.err "rag down") (.ok { content := none, completion := none })
    (Or.inl rfl)

/-- C7: the handler echoes a supplied `session_id` verbatim in the
response body, and a request that omits it is processed with
`"default"`. -/
theorem session_id_echo (body : RequestBody) (eventMessages : Option String)
    (model_arn_env kb_env : Option String) (rag : RemoteOutcome)
    (inv : InvokeOutcome) :
    (∀ s, body.session_id = some s →
       (handler body eventMessages model_arn_env kb_env rag inv).session_id = s)
    ∧ (body.session_id = none →
       (handler body eventMessages model_arn_env kb_env rag inv).session_id
         = "default") := by
  constructor
  · intro s h
    simp [handler, h]
  · intro h
    simp [handler, h]

/-- Witness for C7: `"abc-123"` is echoed unchanged; an omitted
`session_id` becomes `"default"`. -/
theorem session_id_echo_witness :
    (handler { message := some "hi", session_id := some "abc-123" } none
        (some "m") (some "kb") (.ok "answer")
        (.ok { content := none, completion := none })).session_id = "abc-123"
    ∧ (handler { message := some "hi", session_id := none } none
        (some "m") (some "kb") (.ok "answer")
        (.ok { content := none, completion := none })).session_id = "default" :=
  ⟨(session_id_echo { message := some "hi", session_id := some "abc-123" } none
      (some "m") (some "kb") (.ok "answer")
      (.ok { content := none, completion := none })).1 "abc-123" rfl,
   (session_id_echo { message := some "hi", session_id := none } none
      (some "m") (some "kb") (.ok "answer")
      (.ok { content := none, completion := none })).2 rfl⟩

/-- C10: every configured model ARN that starts with
`arn:aws:bedrock:` and contains `inference-profile` is hard-coded to
the model id `us.amazon.nova-premier-v1:0`, which in turn selects the
Nova request/response format, whatever model the profile names. -/
theorem inference_profile_forces_nova (model_arn : String)
    (h1 : pyStartsWith model_arn "arn:aws:bedrock:" = true)
    (h2 : pyIn "inference-profile" model_arn = true) :
    extract_model_id model_arn = "us.amazon.nova-premier-v1:0"
    ∧ model_format (extract_model_id model_arn) = .nova := by
  have he : extract_model_id model_arn = "us.amazon.nova-premier-v1:0" := by
    simp [extract_model_id, h1, h2]
  exact ⟨he, by rw [he]; decide⟩

/-- Witness for C10: an inference-profile ARN naming a Claude model is
still mapped to the Nova Premier id and the Nova format. -/
theorem inference_profile_forces_nova_witness :
    extract_model_id
        "arn:aws:bedrock:us-east-1:123456789012:inference-profile/us.anthropic.claude-3-5-sonnet-20240620-v1:0"
      = "us.amazon.nova-premier-v1:0"
    ∧ model_format (extract_model_id
        "arn:aws:bedrock:us-east-1:123456789012:inference-profile/us.anthropic.claude-3-5-sonnet-20240620-v1:0")
      = .nova :=
  inference_profile_forces_nova
    "arn:aws:bedrock:us-east-1:123456789012:inference-profile/us.anthropic.claude-3-5-sonnet-20240620-v1:0"
    (by decide) (by decide)

end ChatbotLambda
